import Mathlib

/-!
Shallow embedding of the `yrgo::machine_learning` neural-network component
(`src/neural_network`): the `DenseLayer` operations from `dense_layer.cpp` and
the `NeuralNetwork` operations from `neural_network.cpp`, with `double`
modelled as `ℚ`.

The headers `dense_layer.hpp` and `utils.hpp` are not part of the sources;
the pieces that only they determine (the activation-function helpers of
`utils::math`, the default activation argument, the default learning rate of
`DenseLayer::optimize`, and the fresh uniform-random draws produced by
`utils::random::initVector`) are modelled from the spec, as marked on the
corresponding definitions.  `std::tanh` itself is transcendental, so it is
threaded through the development as an explicit parameter `tanhFn`.
-/

namespace Yrgo

/-- The activation-function selector of the layer (`ActFunc` in the sources). -/
inductive ActFunc
  | RELU
  | TANH
deriving DecidableEq

/-- Modelled from the spec: `utils::math::relu` from the missing `utils.hpp`;
"ReLU: `max(0, x)`". -/
def relu (x : ℚ) : ℚ := max 0 x

/-- Modelled from the spec: `utils::math::reluDelta` from the missing
`utils.hpp`; "ReLU derivative: 1 if output>0 else 0", evaluated on the
activated output. -/
def reluDelta (output : ℚ) : ℚ := if 0 < output then 1 else 0

/-- Modelled from the spec: `utils::math::tanhDelta` from the missing
`utils.hpp`; "tanh derivative: 1 − output²", evaluated on the activated
output. -/
def tanhDelta (output : ℚ) : ℚ := 1 - output * output

/-- `getActFuncOutput` from `dense_layer.cpp`: dispatches on the activation
selector.  `tanhFn` stands for `utils::math::tanh`. -/
def getActFuncOutput (tanhFn : ℚ → ℚ) (sum : ℚ) (act_func : ActFunc) : ℚ :=
  match act_func with
  | ActFunc.RELU => relu sum
  | ActFunc.TANH => tanhFn sum

/-- `getActFuncDelta` from `dense_layer.cpp`. -/
def getActFuncDelta (output : ℚ) (act_func : ActFunc) : ℚ :=
  match act_func with
  | ActFunc.RELU => reluDelta output
  | ActFunc.TANH => tanhDelta output

/-- The state of a `DenseLayer` (`dense_layer.hpp`/`dense_layer.cpp`). -/
structure DenseLayer where
  output_ : List ℚ
  bias_ : List ℚ
  error_ : List ℚ
  weights_ : List (List ℚ)
  act_func_ : ActFunc
deriving DecidableEq

/-- `DenseLayer::numNodes`: the size of `output_`. -/
def DenseLayer.numNodes (l : DenseLayer) : ℕ := l.output_.length

/-- `DenseLayer::numWeightsPerNode`: the size of row 0 of `weights_`
(0 when there are no rows). -/
def DenseLayer.numWeightsPerNode (l : DenseLayer) : ℕ := (l.weights_.headD []).length

/-- Left-to-right accumulation `Σ_{j < n} f j`, in the order of the C++
inner loops. -/
def sumRange (f : ℕ → ℚ) : ℕ → ℚ
  | 0 => 0
  | n + 1 => sumRange f n + f n

/-- `std::vector::resize(n, pad)`: keeps the existing prefix, pads new slots. -/
def listResize (l : List ℚ) (n : ℕ) (pad : ℚ) : List ℚ :=
  l.take n ++ List.replicate (n - l.length) pad

/-- `DenseLayer::feedforward`: node `i` gets
`output_[i] = act(bias_[i] + Σ_{j < min(numWeightsPerNode, input.size)} input[j] * weights_[i][j])`. -/
def DenseLayer.feedforward (tanhFn : ℚ → ℚ) (l : DenseLayer) (input : List ℚ) : DenseLayer :=
  { l with output_ := (List.range l.numNodes).map (fun i =>
      getActFuncOutput tanhFn
        (l.bias_.getD i 0 +
          sumRange (fun j => input.getD j 0 * ((l.weights_.getD i []).getD j 0))
            (min l.numWeightsPerNode input.length))
        l.act_func_) }

/-- `DenseLayer::backpropagate(const std::vector<double>&)` (terminal form):
for `i < min(numNodes, reference.size)`,
`error_[i] = (reference[i] - output_[i]) * delta(output_[i])`. -/
def DenseLayer.backpropagate (l : DenseLayer) (reference : List ℚ) : DenseLayer :=
  { l with error_ := ((List.range (min l.numNodes reference.length)).foldl
      (fun e i => e.set i ((reference.getD i 0 - l.output_.getD i 0) *
        getActFuncDelta (l.output_.getD i 0) l.act_func_)) l.error_) }

/-- `DenseLayer::backpropagate(const DenseLayer&)` (hidden form): the source
reads `weights_[j][i]` — this layer's own weight matrix, not
`next_layer.weights_` — exactly as written on line 66 of `dense_layer.cpp`. -/
def DenseLayer.backpropagateHidden (l : DenseLayer) (next_layer : DenseLayer) : DenseLayer :=
  { l with error_ := ((List.range l.numNodes).foldl
      (fun e i => e.set i
        (sumRange (fun j => next_layer.error_.getD j 0 * ((l.weights_.getD j []).getD i 0))
            next_layer.numNodes *
          getActFuncDelta (l.output_.getD i 0) l.act_func_)) l.error_) }

/-- `DenseLayer::optimize`: `bias_[i] += error_[i] * learning_rate` and
`weights_[i][j] += error_[i] * learning_rate * input[j]`. -/
def DenseLayer.optimize (l : DenseLayer) (input : List ℚ) (learning_rate : ℚ) : DenseLayer :=
  { l with
    bias_ := ((List.range l.numNodes).foldl
      (fun b i => b.set i (b.getD i 0 + l.error_.getD i 0 * learning_rate)) l.bias_),
    weights_ := ((List.range l.numNodes).foldl
      (fun w i => w.set i
        ((List.range (min l.numWeightsPerNode input.length)).foldl
          (fun row j => row.set j
            (row.getD j 0 + l.error_.getD i 0 * learning_rate * input.getD j 0))
          (w.getD i []))) l.weights_) }

/-- Modelled from the spec: the default learning-rate argument of
`DenseLayer::optimize` is declared in the missing `dense_layer.hpp`; the spec
and the network header document the learning-rate default as 0.01 (1 %). -/
def defaultLearningRate : ℚ := 1 / 100

/-- `DenseLayer::resize`.  `output_` and `error_` use `std::vector::resize`
(prefix-preserving, zero padding), as in the source.  Modelled from the spec:
`utils::random::initVector` (missing `utils.hpp`) replaces `bias_` and
`weights_` wholesale with freshly drawn uniform values of the requested
dimensions; the draws are passed in explicitly as `fresh_bias` and
`fresh_weights`. -/
def DenseLayer.resize (l : DenseLayer) (num_nodes : ℕ) (num_weights_per_node : ℕ)
    (fresh_bias : List ℚ) (fresh_weights : List (List ℚ)) : DenseLayer :=
  { l with
    output_ := listResize l.output_ num_nodes 0,
    bias_ := fresh_bias,
    error_ := listResize l.error_ num_nodes 0,
    weights_ := fresh_weights }

/-- `DenseLayer::init`: stores the activation selector, then resizes. -/
def DenseLayer.init (l : DenseLayer) (num_nodes num_weights_per_node : ℕ)
    (act_func : ActFunc) (fresh_bias : List ℚ) (fresh_weights : List (List ℚ)) : DenseLayer :=
  DenseLayer.resize { l with act_func_ := act_func } num_nodes num_weights_per_node
    fresh_bias fresh_weights

/-- Modelled from the spec: the default-constructed `DenseLayer` of the missing
`dense_layer.hpp` has empty vectors; the documented activation default is ReLU. -/
def defaultDenseLayer : DenseLayer :=
  { output_ := [], bias_ := [], error_ := [], weights_ := [], act_func_ := ActFunc.RELU }

/-- Modelled from the spec: the default `act_func` argument of the `DenseLayer`
constructor, declared in the missing `dense_layer.hpp`; ReLU per the defaults
documented throughout the spec and the network header. -/
def defaultActFunc : ActFunc := ActFunc.RELU

/-- The argument-taking `DenseLayer` constructor: delegates to `init`. -/
def DenseLayer.mkNew (num_nodes num_weights_per_node : ℕ) (act_func : ActFunc)
    (fresh_bias : List ℚ) (fresh_weights : List (List ℚ)) : DenseLayer :=
  DenseLayer.init defaultDenseLayer num_nodes num_weights_per_node act_func
    fresh_bias fresh_weights

/-- The state of a `NeuralNetwork` (`neural_network.hpp`/`neural_network.cpp`). -/
structure NeuralNetwork where
  hidden_layers_ : List DenseLayer
  output_layer_ : DenseLayer
  train_in_ : List (List ℚ)
  train_out_ : List (List ℚ)
  train_order_ : List ℕ
deriving DecidableEq

/-- The default-constructed (empty) network. -/
def emptyNetwork : NeuralNetwork :=
  { hidden_layers_ := [], output_layer_ := defaultDenseLayer,
    train_in_ := [], train_out_ := [], train_order_ := [] }

/-- `NeuralNetwork::numInputs`:
`hidden_layers_.size() ? hidden_layers_[0].numNodes() : 0` — note the source
reads the first hidden layer's node count, exactly as written. -/
def NeuralNetwork.numInputs (n : NeuralNetwork) : ℕ :=
  match n.hidden_layers_ with
  | [] => 0
  | l :: _ => l.numNodes

/-- `NeuralNetwork::numOutputs`. -/
def NeuralNetwork.numOutputs (n : NeuralNetwork) : ℕ := n.output_layer_.numNodes

/-- `NeuralNetwork::numHiddenLayers`. -/
def NeuralNetwork.numHiddenLayers (n : NeuralNetwork) : ℕ := n.hidden_layers_.length

/-- `NeuralNetwork::numTrainingSets`: the size of `train_order_`. -/
def NeuralNetwork.numTrainingSets (n : NeuralNetwork) : ℕ := n.train_order_.length

/-- `NeuralNetwork::addFirstHiddenLayer`: the source constructs
`DenseLayer hidden_layer{num_nodes, num_weights_per_node}` — the `act_func`
parameter is never forwarded, so the layer gets the constructor's default
activation (`defaultActFunc`). -/
def NeuralNetwork.addFirstHiddenLayer (n : NeuralNetwork)
    (num_nodes num_weights_per_node : ℕ) (act_func : ActFunc)
    (fresh_bias : List ℚ) (fresh_weights : List (List ℚ)) : NeuralNetwork :=
  { n with hidden_layers_ := n.hidden_layers_ ++
      [DenseLayer.mkNew num_nodes num_weights_per_node defaultActFunc
        fresh_bias fresh_weights] }

/-- `NeuralNetwork::init`: adds the first hidden layer
(width `num_hidden_nodes`, fan-in `num_inputs`), then initializes the output
layer (width `num_outputs`, fan-in `num_hidden_nodes`,
activation `output_layer_act_func`). -/
def NeuralNetwork.init (n : NeuralNetwork)
    (num_inputs num_hidden_nodes num_outputs : ℕ)
    (hidden_layer_act_func output_layer_act_func : ActFunc)
    (hidden_bias : List ℚ) (hidden_weights : List (List ℚ))
    (out_bias : List ℚ) (out_weights : List (List ℚ)) : NeuralNetwork :=
  let n1 := n.addFirstHiddenLayer num_hidden_nodes num_inputs hidden_layer_act_func
      hidden_bias hidden_weights
  { n1 with output_layer_ := (n1.output_layer_.init num_outputs num_hidden_nodes
      output_layer_act_func out_bias out_weights) }

/-- `NeuralNetwork::checkTrainingData`: when the two stored sequences differ in
length, both are resized (shrunk) to the shorter length. -/
def NeuralNetwork.checkTrainingData (n : NeuralNetwork) : NeuralNetwork :=
  if n.train_in_.length ≠ n.train_out_.length then
    let num_sets := if n.train_in_.length < n.train_out_.length
      then n.train_in_.length else n.train_out_.length
    { n with train_in_ := n.train_in_.take num_sets,
             train_out_ := n.train_out_.take num_sets }
  else n

/-- `NeuralNetwork::initTrainOrderVector`: resizes `train_order_` to
`train_in_.size()` and writes `train_order_[i] = i` for every index, so the
result is the natural order `0, 1, 2, ...`. -/
def NeuralNetwork.initTrainOrderVector (n : NeuralNetwork) : NeuralNetwork :=
  { n with train_order_ := List.range n.train_in_.length }

/-- `NeuralNetwork::addTrainingData`: copies both sequences, truncates to the
common length, rebuilds the order vector. -/
def NeuralNetwork.addTrainingData (n : NeuralNetwork)
    (train_in train_out : List (List ℚ)) : NeuralNetwork :=
  (({ n with train_in_ := train_in,
             train_out_ := train_out }).checkTrainingData).initTrainOrderVector

/-- `NeuralNetwork::removeTrainingData`. -/
def NeuralNetwork.removeTrainingData (n : NeuralNetwork) : NeuralNetwork :=
  { n with train_in_ := [], train_out_ := [], train_order_ := [] }

/-- `NeuralNetwork::learningRateValid`: `learning_rate > 0`. -/
def NeuralNetwork.learningRateValid (learning_rate : ℚ) : Prop := 0 < learning_rate

instance (x : ℚ) : Decidable (NeuralNetwork.learningRateValid x) :=
  inferInstanceAs (Decidable (0 < x))

/-- The forward pass over the hidden stack: layer 0 consumes the external
input, each later layer consumes its predecessor's fresh `output_`. -/
def feedChain (tanhFn : ℚ → ℚ) : List DenseLayer → List ℚ → List DenseLayer
  | [], _ => []
  | l :: rest, input =>
      let l2 := DenseLayer.feedforward tanhFn l input
      l2 :: feedChain tanhFn rest l2.output_

/-- `NeuralNetwork::feedforward`: forward pass through the hidden stack, then
the output layer consumes the last hidden layer's `output_`. -/
def NeuralNetwork.feedforward (tanhFn : ℚ → ℚ) (n : NeuralNetwork)
    (input : List ℚ) : NeuralNetwork :=
  let hs := feedChain tanhFn n.hidden_layers_ input
  { n with hidden_layers_ := hs,
           output_layer_ := DenseLayer.feedforward tanhFn n.output_layer_
             ((hs.getLastD defaultDenseLayer).output_) }

/-- The backward pass over the hidden stack, in reverse order: the last hidden
layer backpropagates against `next` (the freshly backpropagated output layer),
and every earlier layer against its freshly backpropagated successor. -/
def backpropChain : List DenseLayer → DenseLayer → List DenseLayer
  | [], _ => []
  | l :: rest, next =>
      let rest2 := backpropChain rest next
      DenseLayer.backpropagateHidden l (rest2.headD next) :: rest2

/-- `NeuralNetwork::backpropagate`: terminal form on the output layer, then the
hidden form backwards over the hidden stack. -/
def NeuralNetwork.backpropagate (n : NeuralNetwork) (reference : List ℚ) : NeuralNetwork :=
  let o2 := DenseLayer.backpropagate n.output_layer_ reference
  { n with output_layer_ := o2,
           hidden_layers_ := backpropChain n.hidden_layers_ o2 }

/-- The update pass over the hidden stack: layer 0 consumes the external input,
each later layer consumes its predecessor's `output_`. -/
def optimizeChain (input : List ℚ) (learning_rate : ℚ) :
    List DenseLayer → List DenseLayer
  | [] => []
  | l :: rest =>
      let l2 := DenseLayer.optimize l input learning_rate
      l2 :: optimizeChain l2.output_ learning_rate rest

/-- `NeuralNetwork::optimize`: updates every hidden layer with
`learning_rate`, then calls `output_layer_.optimize(lastHiddenLayer().output())`
— without a learning-rate argument, exactly as on line 167 of
`neural_network.cpp`, so the output layer is updated with the declaration's
default rate (`defaultLearningRate`) instead of the caller's. -/
def NeuralNetwork.optimize (n : NeuralNetwork) (input : List ℚ)
    (learning_rate : ℚ) : NeuralNetwork :=
  let hs := optimizeChain input learning_rate n.hidden_layers_
  { n with hidden_layers_ := hs,
           output_layer_ := DenseLayer.optimize n.output_layer_
             ((hs.getLastD defaultDenseLayer).output_) defaultLearningRate }

/-- `NeuralNetwork::executeEpoch`: for every stored index, feedforward,
backpropagate and optimize on that training example, end to end. -/
def NeuralNetwork.executeEpoch (tanhFn : ℚ → ℚ) (n : NeuralNetwork)
    (learning_rate : ℚ) : NeuralNetwork :=
  n.train_order_.foldl (fun net i =>
    let net1 := NeuralNetwork.feedforward tanhFn net (net.train_in_.getD i [])
    let net2 := NeuralNetwork.backpropagate net1 (net.train_out_.getD i [])
    NeuralNetwork.optimize net2 (net.train_in_.getD i []) learning_rate) n

/-- The epoch loop of `NeuralNetwork::train`: each epoch reshuffles the order
vector (`randomizeTrainingOrder`, via the oracle `shuffle`) and then executes
one epoch. -/
def NeuralNetwork.epochLoop (tanhFn : ℚ → ℚ) (shuffle : ℕ → List ℕ → List ℕ)
    (n : NeuralNetwork) (num_epochs : ℕ) (learning_rate : ℚ) : NeuralNetwork :=
  (List.range num_epochs).foldl (fun net e =>
    NeuralNetwork.executeEpoch tanhFn
      { net with train_order_ := shuffle e net.train_order_ } learning_rate) n

/-- `NeuralNetwork::train`.  Modelled from the spec: the random reshuffling of
`utils::random::shuffleVector` (in the missing `utils.hpp`) is passed as an
explicit oracle `shuffle`, one application per epoch. -/
def NeuralNetwork.train (tanhFn : ℚ → ℚ) (shuffle : ℕ → List ℕ → List ℕ)
    (n : NeuralNetwork) (num_epochs : ℕ) (learning_rate : ℚ) : Bool × NeuralNetwork :=
  if ¬ NeuralNetwork.learningRateValid learning_rate ∨ n.numTrainingSets = 0 then
    (false, n)
  else
    (true, (NeuralNetwork.epochLoop tanhFn shuffle n num_epochs
      learning_rate).removeTrainingData)

/-- `NeuralNetwork::predict`: a full forward pass, returning the updated
network together with the output layer's `output_`. -/
def NeuralNetwork.predict (tanhFn : ℚ → ℚ) (n : NeuralNetwork)
    (input : List ℚ) : NeuralNetwork × List ℚ :=
  let n2 := NeuralNetwork.feedforward tanhFn n input
  (n2, n2.output_layer_.output_)

/-- The per-layer shape invariant (spec §3): all four per-node collections have
`numNodes` entries and every weight row has `numWeightsPerNode` entries. -/
def DenseLayer.Wellformed (l : DenseLayer) : Prop :=
  l.bias_.length = l.output_.length ∧
  l.error_.length = l.output_.length ∧
  l.weights_.length = l.output_.length ∧
  ∀ w ∈ l.weights_, w.length = l.numWeightsPerNode

instance (l : DenseLayer) : Decidable l.Wellformed :=
  inferInstanceAs (Decidable (l.bias_.length = l.output_.length ∧
    l.error_.length = l.output_.length ∧
    l.weights_.length = l.output_.length ∧
    ∀ w ∈ l.weights_, w.length = l.numWeightsPerNode))

/-- Bounds-tracking inner sum of `DenseLayer::feedforward`: `none` exactly when
some element access of the C++ loop body would be out of bounds. -/
def sumRangeChecked (f : ℕ → Option ℚ) : ℕ → Option ℚ
  | 0 => some 0
  | n + 1 => do
      let s ← sumRangeChecked f n
      let x ← f n
      pure (s + x)

/-- Bounds-tracking collection of the per-node results `f 0, ..., f (n-1)`. -/
def optionMapRange (f : ℕ → Option ℚ) : ℕ → Option (List ℚ)
  | 0 => some []
  | n + 1 => do
      let xs ← optionMapRange f n
      let x ← f n
      pure (xs ++ [x])

/-- One term `input[j] * weights_[i][j]` of the feedforward sum, with every
element access bounds-checked. -/
def ffTermChecked (l : DenseLayer) (input : List ℚ) (i j : ℕ) : Option ℚ := do
  let row ← l.weights_[i]?
  let w ← row[j]?
  let x ← input[j]?
  pure (x * w)

/-- One node of `DenseLayer::feedforward`, with every element access
bounds-checked. -/
def DenseLayer.ffRowChecked (tanhFn : ℚ → ℚ) (l : DenseLayer) (input : List ℚ)
    (i : ℕ) : Option ℚ := do
  let b ← l.bias_[i]?
  let s ← sumRangeChecked (ffTermChecked l input i)
    (min l.numWeightsPerNode input.length)
  pure (getActFuncOutput tanhFn (b + s) l.act_func_)

/-- `DenseLayer::feedforward` with every element access bounds-checked. -/
def DenseLayer.feedforwardChecked (tanhFn : ℚ → ℚ) (l : DenseLayer)
    (input : List ℚ) : Option DenseLayer := do
  let outs ← optionMapRange (DenseLayer.ffRowChecked tanhFn l input) l.numNodes
  pure { l with output_ := outs }

/-- The forward pass over the hidden stack with every element access
bounds-checked; returns the updated stack and the last layer's output. -/
def feedChainChecked (tanhFn : ℚ → ℚ) : List DenseLayer → List ℚ →
    Option (List DenseLayer × List ℚ)
  | [], input => some ([], input)
  | l :: rest, input => do
      let l2 ← DenseLayer.feedforwardChecked tanhFn l input
      let p ← feedChainChecked tanhFn rest l2.output_
      pure (l2 :: p.1, p.2)

/-- `NeuralNetwork::feedforward` with every element access bounds-checked,
including the `hidden_layers_[0]` access of `firstHiddenLayer()`. -/
def NeuralNetwork.feedforwardChecked (tanhFn : ℚ → ℚ) (n : NeuralNetwork)
    (input : List ℚ) : Option NeuralNetwork := do
  let _fst ← n.hidden_layers_[0]?
  let p ← feedChainChecked tanhFn n.hidden_layers_ input
  let o2 ← DenseLayer.feedforwardChecked tanhFn n.output_layer_ p.2
  pure { n with hidden_layers_ := p.1, output_layer_ := o2 }

/-- `NeuralNetwork::predict` with every element access of the forward pass
bounds-checked. -/
def NeuralNetwork.predictChecked (tanhFn : ℚ → ℚ) (n : NeuralNetwork)
    (input : List ℚ) : Option (NeuralNetwork × List ℚ) := do
  let n2 ← NeuralNetwork.feedforwardChecked tanhFn n input
  pure (n2, n2.output_layer_.output_)

theorem sumRange_eq_sum (f : ℕ → ℚ) (n : ℕ) :
    sumRange f n = ∑ j ∈ Finset.range n, f j := by
  induction n with
  | zero => simp [sumRange]
  | succ n ih => rw [sumRange, Finset.sum_range_succ, ih]

theorem foldl_set_length (f : ℕ → ℚ) (idxs : List ℕ) (e0 : List ℚ) :
    (idxs.foldl (fun e i => e.set i (f i)) e0).length = e0.length := by
  induction idxs generalizing e0 with
  | nil => rfl
  | cons a as ih => rw [List.foldl_cons, ih, List.length_set]

theorem foldl_set_range_getElem (f : ℕ → ℚ) (n : ℕ) (e0 : List ℚ) (i : ℕ) :
    ((List.range n).foldl (fun e k => e.set k (f k)) e0)[i]? =
      if i < n ∧ i < e0.length then some (f i) else e0[i]? := by
  induction n with
  | zero => simp
  | succ n ih =>
      rw [List.range_succ, List.foldl_append, List.foldl_cons, List.foldl_nil,
        List.getElem?_set, ih, foldl_set_length]
      by_cases hni : n = i
      · subst hni
        by_cases hlen : n < e0.length
        · simp [hlen, Nat.lt_succ_self]
        · simp only [if_pos rfl, if_neg hlen]
          have h1 : ¬ (n < n ∧ n < e0.length) := by omega
          have h2 : ¬ (n < n + 1 ∧ n < e0.length) := by omega
          rw [if_neg h1, if_neg h2, List.getElem?_eq_none (by omega)]
          simp
      · rw [if_neg hni]
        have : (i < n ∧ i < e0.length) ↔ (i < n + 1 ∧ i < e0.length) := by omega
        rw [if_congr this rfl rfl]

theorem sumRangeChecked_isSome (f : ℕ → Option ℚ) (n : ℕ)
    (h : ∀ j, j < n → (f j).isSome = true) :
    (sumRangeChecked f n).isSome = true := by
  induction n with
  | zero => rfl
  | succ n ih =>
      obtain ⟨s, hs⟩ := Option.isSome_iff_exists.mp
        (ih (fun j hj => h j (Nat.lt_succ_of_lt hj)))
      obtain ⟨x, hx⟩ := Option.isSome_iff_exists.mp (h n (Nat.lt_succ_self n))
      simp [sumRangeChecked, hs, hx]

theorem optionMapRange_isSome (f : ℕ → Option ℚ) (n : ℕ)
    (h : ∀ j, j < n → (f j).isSome = true) :
    (optionMapRange f n).isSome = true := by
  induction n with
  | zero => rfl
  | succ n ih =>
      obtain ⟨xs, hxs⟩ := Option.isSome_iff_exists.mp
        (ih (fun j hj => h j (Nat.lt_succ_of_lt hj)))
      obtain ⟨x, hx⟩ := Option.isSome_iff_exists.mp (h n (Nat.lt_succ_self n))
      simp [optionMapRange, hxs, hx]

theorem ffRowChecked_isSome (t : ℚ → ℚ) (l : DenseLayer) (input : List ℚ)
    (hl : l.Wellformed) (i : ℕ) (hi : i < l.numNodes) :
    (DenseLayer.ffRowChecked t l input i).isSome = true := by
  obtain ⟨hb, he, hw, hrows⟩ := hl
  obtain ⟨b, hbv⟩ : ∃ b, l.bias_[i]? = some b :=
    ⟨_, List.getElem?_eq_getElem (by rw [hb]; exact hi)⟩
  obtain ⟨row, hrowv⟩ : ∃ r, l.weights_[i]? = some r :=
    ⟨_, List.getElem?_eq_getElem (by rw [hw]; exact hi)⟩
  have hrlen : row.length = l.numWeightsPerNode :=
    hrows row (List.getElem?_mem hrowv)
  have hsum : (sumRangeChecked (ffTermChecked l input i)
      (min l.numWeightsPerNode input.length)).isSome = true := by
    apply sumRangeChecked_isSome
    intro j hj
    obtain ⟨w, hwv⟩ : ∃ w, row[j]? = some w :=
      ⟨_, List.getElem?_eq_getElem (by rw [hrlen]; omega)⟩
    obtain ⟨x, hxv⟩ : ∃ x, input[j]? = some x :=
      ⟨_, List.getElem?_eq_getElem (by omega)⟩
    simp [ffTermChecked, hrowv, hwv, hxv]
  obtain ⟨s, hsv⟩ := Option.isSome_iff_exists.mp hsum
  simp [DenseLayer.ffRowChecked, hbv, hsv]

theorem feedforwardChecked_isSome (t : ℚ → ℚ) (l : DenseLayer) (input : List ℚ)
    (hl : l.Wellformed) :
    (DenseLayer.feedforwardChecked t l input).isSome = true := by
  obtain ⟨outs, houts⟩ := Option.isSome_iff_exists.mp
    (optionMapRange_isSome (DenseLayer.ffRowChecked t l input) l.numNodes
      (fun i hi => ffRowChecked_isSome t l input hl i hi))
  simp [DenseLayer.feedforwardChecked, houts]

theorem feedChainChecked_isSome (t : ℚ → ℚ) (layers : List DenseLayer)
    (h : ∀ l ∈ layers, l.Wellformed) (input : List ℚ) :
    (feedChainChecked t layers input).isSome = true := by
  induction layers generalizing input with
  | nil => rfl
  | cons l rest ih =>
      obtain ⟨l2, hl2⟩ := Option.isSome_iff_exists.mp
        (feedforwardChecked_isSome t l input (h l (List.mem_cons_self l rest)))
      obtain ⟨p, hp⟩ := Option.isSome_iff_exists.mp
        (ih (fun x hx => h x (List.mem_cons_of_mem l hx)) l2.output_)
      simp [feedChainChecked, hl2, hp]

/-- A 1-node hidden layer carrying its own weight value 2, for exercising the
hidden-layer backpropagation at a shape where every access is in bounds. -/
def c1Layer : DenseLayer := ⟨[1], [0], [0], [[2]], ActFunc.RELU⟩

/-- The downstream layer for `c1Layer`: one node, error 1, weight value 3. -/
def c1Next : DenseLayer := ⟨[1], [0], [1], [[3]], ActFunc.RELU⟩

/-- C1: the claim states that the hidden-layer `backpropagate(nextLayer)` uses
the downstream layer's weights, `nextLayer.weights[j][i]`.  The source
(`dense_layer.cpp` line 66) reads `weights_[j][i]` — this layer's own weights.
At the failing input the code stores error 2 (own weight), while the claimed
formula `Σ_j nextLayer.error[j] * nextLayer.weights[j][i]` times the derivative
gives 3. -/
theorem c1_backpropagateHidden_uses_own_weights :
    (c1Layer.backpropagateHidden c1Next).error_ = [2] ∧
    sumRange (fun j => c1Next.error_.getD j 0 * ((c1Next.weights_.getD j []).getD 0 0))
        c1Next.numNodes *
      getActFuncDelta (c1Layer.output_.getD 0 0) c1Layer.act_func_ = 3 ∧
    (2 : ℚ) ≠ 3 := by
  refine ⟨?_, ?_, by norm_num⟩
  · norm_num [c1Layer, c1Next, DenseLayer.backpropagateHidden, DenseLayer.numNodes,
      sumRange, getActFuncDelta, reluDelta, List.range_succ, List.set]
  · norm_num [c1Layer, c1Next, DenseLayer.numNodes, sumRange, getActFuncDelta, reluDelta]

/-- The network of `init(1, 1, 1, TANH, RELU)` with explicit unit draws. -/
def c2Net : NeuralNetwork :=
  emptyNetwork.init 1 1 1 ActFunc.TANH ActFunc.RELU [1/2] [[1/3]] [1/4] [[1/5]]

/-- C2: the claim states the hidden layer is built with activation `hiddenAct`.
`NeuralNetwork::addFirstHiddenLayer` constructs
`DenseLayer hidden_layer{num_nodes, num_weights_per_node}`, never forwarding
`act_func`, so `init(1, 1, 1, TANH, RELU)` yields a hidden layer whose
activation is the default ReLU, not the requested tanh.  Width and fan-in of
both layers are as claimed. -/
theorem c2_init_ignores_hidden_act_func :
    c2Net.hidden_layers_.map DenseLayer.act_func_ = [ActFunc.RELU] ∧
    c2Net.numHiddenLayers = 1 ∧
    (c2Net.hidden_layers_.headD defaultDenseLayer).numNodes = 1 ∧
    (c2Net.hidden_layers_.headD defaultDenseLayer).numWeightsPerNode = 1 ∧
    c2Net.output_layer_.act_func_ = ActFunc.RELU ∧
    ActFunc.RELU ≠ ActFunc.TANH := by
  refine ⟨?_, ?_, ?_, ?_, ?_, by decide⟩ <;>
  norm_num [c2Net, emptyNetwork, NeuralNetwork.init, NeuralNetwork.addFirstHiddenLayer,
    NeuralNetwork.numHiddenLayers, DenseLayer.mkNew, DenseLayer.init, DenseLayer.resize,
    defaultDenseLayer, defaultActFunc, listResize, DenseLayer.numNodes,
    DenseLayer.numWeightsPerNode]

/-- A configured 1-1 network with unit weights, unit errors and zero biases. -/
def c3Net : NeuralNetwork :=
  ⟨[⟨[1], [0], [1], [[1]], ActFunc.RELU⟩],
    ⟨[0], [0], [1], [[1]], ActFunc.RELU⟩, [], [], []⟩

/-- C3: the claim states every layer's update — including the output layer's —
uses the caller-supplied learning rate.  `NeuralNetwork::optimize` calls
`output_layer_.optimize(lastHiddenLayer().output())` without the learning-rate
argument (line 167 of `neural_network.cpp`), so with caller rate 0.05 the
hidden bias moves by `error * 0.05` but the output bias moves by the default
`error * 0.01`. -/
theorem c3_optimize_output_layer_ignores_caller_rate :
    (c3Net.optimize [1] (5/100)).hidden_layers_.map DenseLayer.bias_ = [[5/100]] ∧
    (c3Net.optimize [1] (5/100)).output_layer_.bias_ = [1/100] ∧
    (1/100 : ℚ) ≠ 5/100 := by
  refine ⟨?_, ?_, by norm_num⟩ <;>
  norm_num [c3Net, NeuralNetwork.optimize, optimizeChain, DenseLayer.optimize,
    DenseLayer.numNodes, DenseLayer.numWeightsPerNode, defaultLearningRate,
    List.range_succ, List.set, defaultDenseLayer]

/-- The network of `init(3, 5, 2, ...)` with explicit zero draws of the
documented dimensions (hidden 5×3, output 2×5). -/
def c4Net : NeuralNetwork :=
  emptyNetwork.init 3 5 2 ActFunc.RELU ActFunc.RELU
    (List.replicate 5 0) (List.replicate 5 [0, 0, 0])
    (List.replicate 2 0) (List.replicate 2 [0, 0, 0, 0, 0])

/-- C4: the claim states `numInputs()` equals the first hidden layer's fan-in.
`NeuralNetwork::numInputs` returns `hidden_layers_[0].numNodes()` — the node
count — so after `init(3, 5, 2, ...)` it returns 5 while the fan-in is 3.
`numOutputs()` is 2 as claimed. -/
theorem c4_numInputs_returns_hidden_width :
    c4Net.numInputs = 5 ∧
    (c4Net.hidden_layers_.headD defaultDenseLayer).numWeightsPerNode = 3 ∧
    c4Net.numOutputs = 2 ∧
    (5 : ℕ) ≠ 3 := by
  norm_num [c4Net, emptyNetwork, NeuralNetwork.init, NeuralNetwork.addFirstHiddenLayer,
    NeuralNetwork.numInputs, NeuralNetwork.numOutputs, DenseLayer.mkNew, DenseLayer.init,
    DenseLayer.resize, defaultDenseLayer, defaultActFunc, listResize, DenseLayer.numNodes,
    DenseLayer.numWeightsPerNode, List.replicate]

/-- A 1-node layer with distinctive stale state in every collection. -/
def c8Layer : DenseLayer := ⟨[5], [9], [7], [[4]], ActFunc.RELU⟩

/-- C8 counterexample: re-initializing with new dimensions does NOT replace all
prior state — `DenseLayer::resize` resizes `output_` and `error_` with
`std::vector::resize`, which preserves existing entries, so after re-init to
the same node count the stale output 5 and stale error 7 are carried over
(while `bias_` and `weights_` are freshly drawn). -/
theorem c8_init_carries_over_stale_output :
    (c8Layer.init 1 1 ActFunc.RELU [1/3] [[1/4]]).output_ = [5] ∧
    (c8Layer.init 1 1 ActFunc.RELU [1/3] [[1/4]]).error_ = [7] ∧
    (c8Layer.init 1 1 ActFunc.RELU [1/3] [[1/4]]).bias_ = [1/3] ∧
    c8Layer.output_ = [5] ∧ c8Layer.error_ = [7] := by
  norm_num [c8Layer, DenseLayer.init, DenseLayer.resize, listResize]

/-- C8 (amended): re-init stores the new activation, replaces `bias_` and
`weights_` wholesale with the fresh draws, and resizes `output_` and `error_`
preserving their existing entries up to the new node count and zero-padding any
new slots. -/
theorem c8_init_replacement_semantics (l : DenseLayer)
    (num_nodes num_weights_per_node : ℕ) (act : ActFunc)
    (fb : List ℚ) (fw : List (List ℚ)) :
    (l.init num_nodes num_weights_per_node act fb fw).act_func_ = act ∧
    (l.init num_nodes num_weights_per_node act fb fw).bias_ = fb ∧
    (l.init num_nodes num_weights_per_node act fb fw).weights_ = fw ∧
    (l.init num_nodes num_weights_per_node act fb fw).output_ =
      l.output_.take num_nodes ++ List.replicate (num_nodes - l.output_.length) 0 ∧
    (l.init num_nodes num_weights_per_node act fb fw).error_ =
      l.error_.take num_nodes ++ List.replicate (num_nodes - l.error_.length) 0 :=
  ⟨rfl, rfl, rfl, rfl, rfl⟩

/-- C5: `train(numEpochs, learningRate)` returns false iff the learning rate is
non-positive or no training sets are stored; on failure the network is returned
unchanged (no epochs run); on success it runs the epoch loop for `numEpochs`
epochs, discards the stored training data and order, and returns true. -/
theorem c5_train_contract (t : ℚ → ℚ) (sh : ℕ → List ℕ → List ℕ)
    (n : NeuralNetwork) (num_epochs : ℕ) (lr : ℚ) :
    ((NeuralNetwork.train t sh n num_epochs lr).1 = false ↔
      lr ≤ 0 ∨ n.numTrainingSets = 0) ∧
    ((lr ≤ 0 ∨ n.numTrainingSets = 0) →
      (NeuralNetwork.train t sh n num_epochs lr).2 = n) ∧
    (0 < lr → n.numTrainingSets ≠ 0 →
      NeuralNetwork.train t sh n num_epochs lr =
        (true, (NeuralNetwork.epochLoop t sh n num_epochs lr).removeTrainingData) ∧
      (NeuralNetwork.train t sh n num_epochs lr).2.train_in_ = [] ∧
      (NeuralNetwork.train t sh n num_epochs lr).2.train_out_ = [] ∧
      (NeuralNetwork.train t sh n num_epochs lr).2.train_order_ = []) := by
  by_cases h : ¬ NeuralNetwork.learningRateValid lr ∨ n.numTrainingSets = 0
  · have htr : NeuralNetwork.train t sh n num_epochs lr = (false, n) := by
      unfold NeuralNetwork.train
      rw [if_pos h]
    refine ⟨?_, fun _ => by rw [htr], fun hlr hsets => ?_⟩
    · rw [htr]
      constructor
      · intro _
        rcases h with h1 | h2
        · exact Or.inl (not_lt.mp h1)
        · exact Or.inr h2
      · intro _
        rfl
    · exfalso
      rcases h with h1 | h2
      · exact h1 hlr
      · exact hsets h2
  · have htr : NeuralNetwork.train t sh n num_epochs lr =
        (true, (NeuralNetwork.epochLoop t sh n num_epochs lr).removeTrainingData) := by
      unfold NeuralNetwork.train
      rw [if_neg h]
    push_neg at h
    refine ⟨?_, ?_, fun _ _ => ⟨htr, by rw [htr]; rfl, by rw [htr]; rfl, by rw [htr]; rfl⟩⟩
    · rw [htr]
      constructor
      · intro habs
        simp at habs
      · intro hor
        exfalso
        rcases hor with h1 | h2
        · exact absurd h.1 (not_lt.mpr h1)
        · exact h.2 h2
    · intro hor
      exfalso
      rcases hor with h1 | h2
      · exact absurd h.1 (not_lt.mpr h1)
      · exact h.2 h2

/-- A configured network holding exactly one stored training pair. -/
def c5Net : NeuralNetwork := emptyNetwork.addTrainingData [[1]] [[1]]

theorem c5_train_contract_witness :
    (NeuralNetwork.train (fun x => x) (fun _ o => o) c5Net 1 0).2 = c5Net ∧
    (NeuralNetwork.train (fun x => x) (fun _ o => o) c5Net 1 1).2.train_in_ = [] := by
  constructor
  · exact (c5_train_contract (fun x => x) (fun _ o => o) c5Net 1 0).2.1 (Or.inl le_rfl)
  · exact ((c5_train_contract (fun x => x) (fun _ o => o) c5Net 1 1).2.2 one_pos
      (by decide)).2.1

/-- C6: `feedforward(input)` sets, for each node `i < numNodes`,
`output[i] = activation(bias[i] + Σ_j weights[i][j] * input[j])` with `j`
ranging below `min(numWeightsPerNode, len(input))`; ReLU is `max(0, x)`, and a
zero weighted sum yields output 0 under both activations (for tanh because the
standard hyperbolic tangent vanishes at 0). -/
theorem c6_feedforward_formula (t : ℚ → ℚ) (ht : t 0 = 0) (l : DenseLayer)
    (input : List ℚ) :
    (∀ i, i < l.numNodes →
      (l.feedforward t input).output_[i]? =
        some (getActFuncOutput t
          (l.bias_.getD i 0 +
            ∑ j ∈ Finset.range (min l.numWeightsPerNode input.length),
              (l.weights_.getD i []).getD j 0 * input.getD j 0)
          l.act_func_)) ∧
    (∀ x : ℚ, relu x = max 0 x) ∧
    (∀ a : ActFunc, getActFuncOutput t 0 a = 0) := by
  refine ⟨?_, fun x => rfl, ?_⟩
  · intro i hi
    have hmap : (l.feedforward t input).output_ = (List.range l.numNodes).map (fun i =>
        getActFuncOutput t
          (l.bias_.getD i 0 +
            sumRange (fun j => input.getD j 0 * ((l.weights_.getD i []).getD j 0))
              (min l.numWeightsPerNode input.length))
          l.act_func_) := rfl
    rw [hmap, List.getElem?_map, List.getElem?_range hi, Option.map_some']
    have hsum : sumRange (fun j => input.getD j 0 * ((l.weights_.getD i []).getD j 0))
        (min l.numWeightsPerNode input.length) =
        ∑ j ∈ Finset.range (min l.numWeightsPerNode input.length),
          (l.weights_.getD i []).getD j 0 * input.getD j 0 := by
      rw [sumRange_eq_sum]
      exact Finset.sum_congr rfl (fun j _ => mul_comm _ _)
    rw [hsum]
  · intro a
    cases a with
    | RELU => simp [getActFuncOutput, relu]
    | TANH => simpa [getActFuncOutput] using ht

/-- The spec's worked example: weights `[0.5, -0.5]`, bias 0. -/
def c6Layer : DenseLayer := ⟨[0], [0], [0], [[1/2, -1/2]], ActFunc.RELU⟩

theorem c6_feedforward_formula_witness :
    (c6Layer.feedforward (fun x => x) [2, 2]).output_[0]? = some 0 := by
  have h := (c6_feedforward_formula (fun x => x) rfl c6Layer [2, 2]).1 0 (by decide)
  rw [h]
  norm_num [c6Layer, getActFuncOutput, relu, Finset.sum_range_succ,
    DenseLayer.numWeightsPerNode]

/-- C7: the terminal-layer `backpropagate(target)` writes
`error[i] = (target[i] - output[i]) * activationDerivative(output[i])` exactly
for `i < min(numNodes, len(target))` (derivative on the activated output: ReLU
gives `if output>0 then 1 else 0`, tanh gives `1 - output²`), and every error
slot with index at least `len(target)` keeps its previous value. -/
theorem c7_backpropagate_terminal_frame (l : DenseLayer) (target : List ℚ)
    (hwf : l.numNodes ≤ l.error_.length) :
    (∀ i, i < min l.numNodes target.length →
      (l.backpropagate target).error_[i]? =
        some ((target.getD i 0 - l.output_.getD i 0) *
          getActFuncDelta (l.output_.getD i 0) l.act_func_)) ∧
    (∀ i, target.length ≤ i →
      (l.backpropagate target).error_[i]? = l.error_[i]?) ∧
    (∀ y : ℚ, getActFuncDelta y ActFunc.RELU = if 0 < y then 1 else 0) ∧
    (∀ y : ℚ, getActFuncDelta y ActFunc.TANH = 1 - y * y) := by
  have hrw : (l.backpropagate target).error_ =
      (List.range (min l.numNodes target.length)).foldl
        (fun e i => e.set i ((target.getD i 0 - l.output_.getD i 0) *
          getActFuncDelta (l.output_.getD i 0) l.act_func_)) l.error_ := rfl
  refine ⟨?_, ?_, fun y => rfl, fun y => rfl⟩
  · intro i hi
    rw [hrw, foldl_set_range_getElem]
    rw [if_pos ⟨hi, by have h1 := min_le_left l.numNodes target.length; omega⟩]
  · intro i hi
    rw [hrw, foldl_set_range_getElem]
    rw [if_neg (by have h1 := min_le_right l.numNodes target.length; omega)]

/-- A 2-node layer with stale errors 9 and a 1-entry target, exercising both
the written and the untouched halves of the error buffer. -/
def c7Layer : DenseLayer := ⟨[1, 2], [0, 0], [9, 9], [[1], [1]], ActFunc.RELU⟩

theorem c7_backpropagate_terminal_frame_witness :
    (c7Layer.backpropagate [3]).error_[0]? = some 2 ∧
    (c7Layer.backpropagate [3]).error_[1]? = c7Layer.error_[1]? := by
  constructor
  · have h := (c7_backpropagate_terminal_frame c7Layer [3] (by decide)).1 0 (by decide)
    rw [h]
    norm_num [c7Layer, getActFuncDelta, reluDelta]
  · exact (c7_backpropagate_terminal_frame c7Layer [3] (by decide)).2.1 1 (by decide)

/-- C9: `addTrainingData(inputs, targets)` stores both sequences truncated to
the shorter length, so `numTrainingSets() = min(len(inputs), len(targets))`,
and rebuilds the training order as the natural sequence `0, 1, 2, ...` of that
size. -/
theorem c9_addTrainingData_truncates (n : NeuralNetwork) (ins outs : List (List ℚ)) :
    (n.addTrainingData ins outs).numTrainingSets = min ins.length outs.length ∧
    (n.addTrainingData ins outs).train_order_ = List.range (min ins.length outs.length) ∧
    (n.addTrainingData ins outs).train_in_ = ins.take (min ins.length outs.length) ∧
    (n.addTrainingData ins outs).train_out_ = outs.take (min ins.length outs.length) := by
  unfold NeuralNetwork.addTrainingData NeuralNetwork.checkTrainingData
    NeuralNetwork.initTrainOrderVector NeuralNetwork.numTrainingSets
  split_ifs with h1 h2
  · simp only at h1 h2
    refine ⟨?_, ?_, ?_, ?_⟩
    · simp only [List.length_range, List.length_take]
      omega
    · simp only [List.length_take]
      congr 1
      omega
    · simp only
      congr 1
      omega
    · simp only
      congr 1
      omega
  · simp only at h1 h2
    refine ⟨?_, ?_, ?_, ?_⟩
    · simp only [List.length_range, List.length_take]
      omega
    · simp only [List.length_take]
      congr 1
      omega
    · simp only
      congr 1
      omega
    · simp only
      congr 1
      omega
  · simp only at h1
    have he : ins.length = outs.length := not_ne_iff.mp h1
    refine ⟨?_, ?_, ?_, ?_⟩
    · simp only [List.length_range]
      omega
    · simp only
      congr 1
      omega
    · simp only
      rw [show min ins.length outs.length = ins.length by omega, List.take_length]
    · simp only
      rw [show min ins.length outs.length = outs.length by omega, List.take_length]

/-- C10: the forward pass of `predict` is only memory-safe on a configured
network: with at least one hidden layer (and the shape invariants every
API-built layer satisfies) every element access of the bounds-checked forward
pass succeeds, while on a network with zero hidden layers (such as a
default-constructed one) the `hidden_layers_[0]` access of
`firstHiddenLayer()` is out of bounds and the checked pass reports `none`. -/
theorem c10_predict_bounds_safety (t : ℚ → ℚ) :
    (∀ n : NeuralNetwork, ∀ input : List ℚ,
      1 ≤ n.numHiddenLayers →
      (∀ l ∈ n.hidden_layers_, l.Wellformed) →
      n.output_layer_.Wellformed →
      (NeuralNetwork.predictChecked t n input).isSome = true) ∧
    (∀ n : NeuralNetwork, ∀ input : List ℚ,
      n.numHiddenLayers = 0 →
      NeuralNetwork.predictChecked t n input = none) := by
  constructor
  · intro n input hlen hwf hout
    obtain ⟨l0, hl0⟩ : ∃ l0, n.hidden_layers_[0]? = some l0 :=
      ⟨_, List.getElem?_eq_getElem (by simpa [NeuralNetwork.numHiddenLayers] using hlen)⟩
    obtain ⟨p, hp⟩ := Option.isSome_iff_exists.mp
      (feedChainChecked_isSome t n.hidden_layers_ hwf input)
    obtain ⟨o2, ho2⟩ := Option.isSome_iff_exists.mp
      (feedforwardChecked_isSome t n.output_layer_ p.2 hout)
    simp [NeuralNetwork.predictChecked, NeuralNetwork.feedforwardChecked, hl0, hp, ho2]
  · intro n input hlen
    have hnil : n.hidden_layers_ = [] := List.length_eq_zero.mp hlen
    simp [NeuralNetwork.predictChecked, NeuralNetwork.feedforwardChecked, hnil]

/-- A minimal configured 1-1 network on which every forward-pass access is in
bounds. -/
def c10Net : NeuralNetwork :=
  ⟨[⟨[0], [0], [0], [[1]], ActFunc.RELU⟩], ⟨[0], [0], [0], [[1]], ActFunc.RELU⟩,
    [], [], []⟩

theorem c10_predict_bounds_safety_witness :
    (NeuralNetwork.predictChecked (fun x => x) c10Net [1]).isSome = true ∧
    NeuralNetwork.predictChecked (fun x => x) emptyNetwork [1] = none := by
  constructor
  · exact (c10_predict_bounds_safety (fun x => x)).1 c10Net [1] (by decide)
      (by decide) (by decide)
  · exact (c10_predict_bounds_safety (fun x => x)).2 emptyNetwork [1] rfl

end Yrgo
